import Mathlib

/-!
Shallow embedding of the Bot_Interview orchestration server (src/server.js and
the unnamed companion file).  The repository stores test runs, per-run event
logs and per-run transcripts in in-memory maps; HTTP handlers mutate the run
found by an id lookup.  Time (new Date().toISOString()) is modelled as a Nat
tick passed explicitly to each operation; JavaScript Maps keyed by runId are
modelled as association lists in insertion order; `undefined` fields are
modelled with Option.  External I/O (axios/twilio calls) is modelled by its
observable outcome: `Except` arguments for calls whose success/failure drives
control flow, and lists of attempted/cleanup call ids for side-effect counting.
-/

namespace BotInterview

/-- Replace the first element of a list satisfying `p` by its image under `f`
(the JavaScript pattern `Array.from(map.values()).find(p)` followed by in-place
mutation of the found object). -/
def updateFirst {α : Type} (p : α → Bool) (f : α → α) : List α → List α
  | [] => []
  | x :: xs => if p x then f x :: xs else x :: updateFirst p f xs

/-- Event record stored by `saveEvent` (the opaque `data` payload is not
modelled; no control flow reads it). -/
structure Event where
  timestamp : Nat
  type : String
deriving DecidableEq, Repr

/-- Transcript entry stored by `saveTranscript`; `text` is Option because the
handler forwards `transcript.text`, which may be `undefined`. -/
structure TranscriptEntry where
  timestamp : Nat
  participant : String
  text : Option String
  final : Bool
deriving DecidableEq, Repr

/-- The body of `saveEvent`: `if (!storage.events.has(runId)) set(runId, []);
storage.events.get(runId).push(entry)`. -/
def pushEvent (evs : List (String × List Event)) (rid ty : String) (now : Nat) :
    List (String × List Event) :=
  if evs.any (fun q => q.1 == rid) then
    updateFirst (fun q => q.1 == rid) (fun q => (q.1, q.2 ++ [⟨now, ty⟩])) evs
  else
    evs ++ [(rid, [⟨now, ty⟩])]

/-- The body of `saveTranscript`. -/
def pushTranscript (trs : List (String × List TranscriptEntry)) (rid who : String)
    (text : Option String) (final : Bool) (now : Nat) :
    List (String × List TranscriptEntry) :=
  if trs.any (fun q => q.1 == rid) then
    updateFirst (fun q => q.1 == rid) (fun q => (q.1, q.2 ++ [⟨now, who, text, final⟩])) trs
  else
    trs ++ [(rid, [⟨now, who, text, final⟩])]

namespace Direct

/-- One side of the run as written by `startTest` in the direct-call variant:
interviewer `{ role: 'caller', status: 'calling' }`, candidate
`{ role: 'receiver', status: 'receiving' }` (constant config-derived fields
`assistantId`/`phoneNumber`/`persona` are not read by any handler and are
omitted). -/
structure Participant where
  role : String
  status : String
deriving DecidableEq, Repr

/-- The `participants` object once populated (exactly the two roles). -/
structure Participants where
  interviewer : Participant
  candidate : Participant
deriving DecidableEq, Repr

/-- A test run of the direct-call variant.  `participants = none` models the
initial empty object `{}` (whose `.interviewer` is `undefined`);
`vapiCallId = none` models the field being absent before the Vapi call is
created. -/
structure TestRun where
  runId : String
  scenarioId : String
  persona : String
  status : String
  startTime : Nat
  endTime : Option Nat := none
  vapiCallId : Option String := none
  participants : Option Participants := none
deriving DecidableEq, Repr

/-- The in-memory `storage` object: three Maps in insertion order. -/
structure Storage where
  testRuns : List TestRun
  events : List (String × List Event)
  transcripts : List (String × List TranscriptEntry)
deriving DecidableEq, Repr

/-- Initial empty storage. -/
def emptyStorage : Storage := ⟨[], [], []⟩

/-- Append an event for a run (`saveEvent` on this storage). -/
def saveEventS (s : Storage) (rid ty : String) (now : Nat) : Storage :=
  { s with events := pushEvent s.events rid ty now }

/-- The `Map.set` write of a run: replace an existing entry with the same key,
else append. -/
def setRun (runs : List TestRun) (run : TestRun) : List TestRun :=
  if runs.any (fun r => r.runId == run.runId) then
    updateFirst (fun r => r.runId == run.runId) (fun _ => run) runs
  else
    runs ++ [run]

/-- The configuration consulted by `startTest`: presence of
`config.vapi.interviewer.assistantId` and `config.vapi.candidate.phoneNumber`
(environment-supplied, possibly absent). -/
structure Config where
  interviewerAssistantId : Option String
  candidatePhone : Option String
deriving DecidableEq, Repr

/-- The fixed run timeout: `config.testTimeout = 5 * 60 * 1000` milliseconds. -/
def testTimeout : Nat := 5 * 60 * 1000

/-- Request body of `POST /tests/start`.  The handler destructures only
`persona` and `scenarioId`; a `durationSeconds` field, if sent by the caller,
is part of the body but never read. -/
structure StartReq where
  persona : String := "nervous"
  scenarioId : String := "default"
  durationSeconds : Option Nat := none
deriving DecidableEq, Repr

/-- Response data of the Vapi create-call API (`response.data`); only `id` is
read. -/
structure CallInfo where
  id : String
deriving DecidableEq, Repr

/-- Observable outcome of one `startTest` invocation. -/
structure StartOutcome where
  storage : Storage
  respStatus : Nat
  respSuccess : Bool
  /-- Delay of the auto-cleanup `setTimeout`, when one was armed. -/
  timerDelay : Option Nat
  /-- External call-placement attempts made (one entry per axios call-creation
  request issued). -/
  attempts : List String
deriving DecidableEq, Repr

/-- The run record written to the registry before the call is placed
(src/server.js lines 164-172): status `starting`, empty participants. -/
def initialRun (req : StartReq) (runId : String) (now : Nat) : TestRun :=
  { runId := runId, scenarioId := req.scenarioId, persona := req.persona,
    status := "starting", startTime := now }

/-- The registry update performed after the Vapi call is created
(src/server.js lines 186-203): participants populated, status `running`,
call id recorded. -/
def connectRun (call : CallInfo) (r : TestRun) : TestRun :=
  { r with
    participants := some
      { interviewer := { role := "caller", status := "calling" },
        candidate := { role := "receiver", status := "receiving" } },
    status := "running",
    vapiCallId := some call.id }

/-- The `startTest` handler of the direct-call variant (src/server.js lines
149-237).  `callResult` is the outcome of the single awaited
`createVapiCall` (`.error` = the axios promise rejected synchronously with
respect to the handler).  Control flow: config validation throws before the
registry write; a rejected call throws after it; the catch block answers 500
and performs no cleanup and arms no timer. -/
def startTest (s : Storage) (cfg : Config) (req : StartReq) (runId : String)
    (callResult : Except String CallInfo) (now : Nat) : StartOutcome :=
  if cfg.interviewerAssistantId.isNone then
    { storage := s, respStatus := 500, respSuccess := false, timerDelay := none, attempts := [] }
  else if cfg.candidatePhone.isNone then
    { storage := s, respStatus := 500, respSuccess := false, timerDelay := none, attempts := [] }
  else
    let s1 := saveEventS { s with testRuns := setRun s.testRuns (initialRun req runId now) }
      runId "test_started" now
    match callResult with
    | .error _ =>
        { storage := s1, respStatus := 500, respSuccess := false,
          timerDelay := none, attempts := ["createVapiCall"] }
    | .ok call =>
        let runs := updateFirst (fun r => r.runId == runId) (connectRun call) s1.testRuns
        let s2 := { s1 with testRuns := runs }
        let s3 := saveEventS s2 runId "vapi_call_created" now
        { storage := s3, respStatus := 200, respSuccess := true,
          timerDelay := some testTimeout, attempts := ["createVapiCall"] }

/-- The `stopTest` function (src/server.js lines 240-275).  Returns the new
storage and the list of external call ids for which an end-call request was
issued (the best-effort `axios.patch`; its own failure is caught and changes
nothing).  Guard: missing run or `status === 'completed'` returns
immediately. -/
def stopTest (s : Storage) (rid : String) (now : Nat) : Storage × List String :=
  match s.testRuns.find? (fun r => r.runId == rid) with
  | none => (s, [])
  | some r =>
      if r.status == "completed" then (s, [])
      else
        let cleanup := match r.vapiCallId with
          | some c => [c]
          | none => []
        let runs := updateFirst (fun x => x.runId == rid)
          (fun x => { x with status := "completed", endTime := some now }) s.testRuns
        (saveEventS { s with testRuns := runs } rid "test_completed" now, cleanup)

/-- The `POST /tests/:runId/stop` route: awaits `stopTest` and answers
`{ success: true }`; `stopTest` swallows its own errors, so the catch branch
is unreachable.  Result: storage, HTTP status, `success` flag, cleanup call
ids. -/
def stopRoute (s : Storage) (rid : String) (now : Nat) :
    Storage × Nat × Bool × List String :=
  let p := stopTest s rid now
  (p.1, 200, true, p.2)

/-- The auto-cleanup `setTimeout` callback armed by `startTest` (lines
221-227): re-reads the run and calls `stopTest` unless it is already
completed. -/
def timeoutFire (s : Storage) (rid : String) (now : Nat) : Storage × List String :=
  match s.testRuns.find? (fun r => r.runId == rid) with
  | none => (s, [])
  | some r =>
      if r.status == "completed" then (s, [])
      else stopTest s rid now

/-- Transcript payload of a Vapi webhook (`req.body.transcript`); `text` may
be absent. -/
structure TranscriptPayload where
  text : Option String
  isFinal : Bool
deriving DecidableEq, Repr

/-- Body of a `POST /vapi/webhook` request: `type`, `call?.id`, the optional
`transcript` object and `message?.role`. -/
structure VapiReq where
  type : Option String := none
  callId : Option String := none
  transcript : Option TranscriptPayload := none
  messageRole : Option String := none
deriving DecidableEq, Repr

/-- The `/vapi/webhook` handler (src/server.js lines 316-374) together with
the error-handling middleware (lines 711-717).  Returns the storage after the
handler ran (including mutations made before a thrown TypeError) and the HTTP
status sent: 200 from `res.sendStatus(200)` when the handler completes, 500
from the middleware when it throws.  Throw points, as in the source:
accessing `.status` on `participants.interviewer` when `participants` is the
initial empty object, and `transcript.text.substring` when `text` is
undefined (the transcript and event pushed before that line survive). -/
def vapiWebhook (s : Storage) (req : VapiReq) (now : Nat) : Storage × Nat :=
  match s.testRuns.find? (fun r => r.vapiCallId == req.callId) with
  | none => (s, 200)
  | some run =>
      if req.type == some "call-start" then
        match run.participants with
        | none =>
            let runs := updateFirst (fun r => r.vapiCallId == req.callId)
              (fun r => { r with status := "active" }) s.testRuns
            ({ s with testRuns := runs }, 500)
        | some _ =>
            let runs := updateFirst (fun r => r.vapiCallId == req.callId)
              (fun r =>
                { r with
                  status := "active",
                  participants := r.participants.map (fun ps =>
                    { ps with
                      interviewer := { ps.interviewer with status := "connected" },
                      candidate := { ps.candidate with status := "connected" } }) })
              s.testRuns
            (saveEventS { s with testRuns := runs } run.runId "call_started" now, 200)
      else if req.type == some "call-end" then
        match run.participants with
        | none =>
            let runs := updateFirst (fun r => r.vapiCallId == req.callId)
              (fun r => { r with status := "completed", endTime := some now }) s.testRuns
            ({ s with testRuns := runs }, 500)
        | some _ =>
            let runs := updateFirst (fun r => r.vapiCallId == req.callId)
              (fun r =>
                { r with
                  status := "completed",
                  endTime := some now,
                  participants := r.participants.map (fun ps =>
                    { ps with
                      interviewer := { ps.interviewer with status := "disconnected" },
                      candidate := { ps.candidate with status := "disconnected" } }) })
              s.testRuns
            (saveEventS { s with testRuns := runs } run.runId "call_ended" now, 200)
      else if req.type == some "transcript" then
        match req.transcript with
        | none => (s, 200)
        | some p =>
            let who := if req.messageRole == some "user" then "candidate" else "interviewer"
            let trs := pushTranscript s.transcripts run.runId who p.text p.isFinal now
            let s1 := { s with transcripts := trs }
            let s2 := saveEventS s1 run.runId "transcript" now
            (s2, if p.text.isSome then 200 else 500)
      else
        (saveEventS s run.runId "vapi_webhook" now, 200)

end Direct

namespace Relay

/-- One participant record of the conference variant's run (written by
`startTest` in src/server.js lines 941-953): the interviewer carries the
Twilio `callSid`; the candidate has no callSid. -/
structure Participant where
  callSid : Option String
  status : String
  connectTime : Option Nat := none
  disconnectTime : Option Nat := none
deriving DecidableEq, Repr

/-- The populated `participants` object of the conference variant. -/
structure Participants where
  interviewer : Participant
  candidate : Participant
deriving DecidableEq, Repr

/-- A test run of the conference variant; `participants = none` models the
initial empty object. -/
structure TestRun where
  runId : String
  status : String
  conferenceName : String
  startTime : Nat
  endTime : Option Nat := none
  participants : Option Participants := none
deriving DecidableEq, Repr

/-- Storage of the conference variant (transcripts are untouched by the
handlers modelled here). -/
structure Storage where
  testRuns : List TestRun
  events : List (String × List Event)
deriving DecidableEq, Repr

/-- The id consulted by the `/twilio/call-status` lookup:
`run.participants?.interviewer?.callSid` (optional chaining yields
`undefined` when `participants` is empty). -/
def interviewerSid (r : TestRun) : Option String :=
  r.participants.bind (fun ps => ps.interviewer.callSid)

/-- The mutation the `/twilio/call-status` handler applies to the matched
run: write the raw Twilio status into the interviewer participant, record
`connectTime` on `answered` and `disconnectTime` on `completed`. -/
def applyStatus (st : String) (now : Nat) (r : TestRun) : TestRun :=
  { r with participants := r.participants.map (fun ps =>
      { ps with interviewer :=
        { ps.interviewer with
          status := st,
          connectTime :=
            if st == "answered" then some now else ps.interviewer.connectTime,
          disconnectTime :=
            if st == "completed" then some now else ps.interviewer.disconnectTime } }) }

/-- The `POST /twilio/call-status` handler (src/server.js lines 1071-1097).
Looks up the run whose interviewer callSid equals the posted `CallSid`; when
found, applies `applyStatus` and appends a `call_status` event.  The run's
own `status` field is never written here.  When the matched run's
`participants` is still the empty object the unguarded access
`testRun.participants.interviewer` throws before any mutation and the
middleware answers 500. -/
def callStatusHook (s : Storage) (callSid : Option String) (st : String) (now : Nat) :
    Storage × Nat :=
  match s.testRuns.find? (fun r => interviewerSid r == callSid) with
  | none => (s, 200)
  | some run =>
      match run.participants with
      | none => (s, 500)
      | some _ =>
          let runs := updateFirst (fun r => interviewerSid r == callSid)
            (applyStatus st now) s.testRuns
          ({ testRuns := runs, events := pushEvent s.events run.runId "call_status" now }, 200)

end Relay

section Fixtures

/-- A concrete run of the direct-call variant in the state left by a
successful `startTest` webhook-correlatable by Vapi call id c1. -/
def runR1 : Direct.TestRun :=
  { runId := "r1", scenarioId := "default", persona := "nervous",
    status := "running", startTime := 0, vapiCallId := some "c1",
    participants := some { interviewer := { role := "caller", status := "calling" },
                           candidate := { role := "receiver", status := "receiving" } } }

/-- A storage holding just `runR1`. -/
def storR1 : Direct.Storage := { testRuns := [runR1], events := [], transcripts := [] }

/-- A configuration with both required Vapi settings present. -/
def cfgOk : Direct.Config :=
  { interviewerAssistantId := some "asst1", candidatePhone := some "+15550001111" }

/-- Outcome of a successful concrete `startTest` (direct call created with id
c1) on empty storage. -/
def startOk : Direct.StartOutcome :=
  Direct.startTest Direct.emptyStorage cfgOk {} "r1" (.ok ⟨"c1"⟩) 0

/-- Outcome of a concrete `startTest` whose Vapi call placement rejects. -/
def startRejected : Direct.StartOutcome :=
  Direct.startTest Direct.emptyStorage cfgOk {} "r1" (.error "vapi rejected") 0

/-- A call-end webhook request for call id c1. -/
def ceReq : Direct.VapiReq := { type := some "call-end", callId := some "c1" }

/-- Storage after a successful start followed by one call-end webhook at
time 1: the run is completed with end time 1. -/
def storEnded1 : Direct.Storage := (Direct.vapiWebhook startOk.storage ceReq 1).1

/-- Storage after a second call-end webhook at time 2 hits the already
completed run. -/
def storEnded2 : Direct.Storage := (Direct.vapiWebhook storEnded1 ceReq 2).1

/-- The participants object after both sides were marked disconnected by a
call-end webhook. -/
def psDisconnected : Direct.Participants :=
  { interviewer := { role := "caller", status := "disconnected" },
    candidate := { role := "receiver", status := "disconnected" } }

/-- The run r1 as it stands inside `storEnded1`: completed at time 1 with
both participants disconnected. -/
def runEnded : Direct.TestRun :=
  { runId := "r1", scenarioId := "default", persona := "nervous", status := "completed",
    startTime := 0, endTime := some 1, vapiCallId := some "c1",
    participants := some psDisconnected }

/-- A webhook request with a call-end type for call id c1 (used to exercise
the acknowledgment path). -/
def ackReq : Direct.VapiReq := { type := some "call-end", callId := some "c1" }

/-- The participants object of `relayRun`. -/
def relayPs : Relay.Participants :=
  { interviewer := { callSid := some "CA1", status := "calling" },
    candidate := { callSid := none, status := "pending" } }

/-- A concrete run of the conference variant with the interviewer leg bound
to Twilio callSid CA1, as left by that variant's `startTest`. -/
def relayRun : Relay.TestRun :=
  { runId := "r1", status := "running", conferenceName := "AI_Interview_r1", startTime := 0,
    participants := some relayPs }

/-- A conference-variant storage holding just `relayRun`. -/
def relayStor : Relay.Storage := { testRuns := [relayRun], events := [] }

/-- Conference-variant storage after an `answered` call-status event for CA1
at time 1. -/
def relayAnswered : Relay.Storage := (Relay.callStatusHook relayStor (some "CA1") "answered" 1).1

/-- Conference-variant storage after the subsequent `completed` call-status
event for CA1 at time 2. -/
def relayDone : Relay.Storage := (Relay.callStatusHook relayAnswered (some "CA1") "completed" 2).1

end Fixtures

section ListLemmas

variable {α : Type}

theorem find?_updateFirst (p : α → Bool) (f : α → α) (l : List α) (x : α)
    (h : l.find? p = some x) (hf : p (f x) = true) :
    (updateFirst p f l).find? p = some (f x) := by
  induction l with
  | nil => simp [List.find?] at h
  | cons a as ih =>
      cases hp : p a with
      | true =>
          rw [List.find?] at h
          rw [hp] at h
          injection h with h
          subst h
          simp [updateFirst, hp, List.find?, hf]
      | false =>
          rw [List.find?] at h
          rw [hp] at h
          simp only [updateFirst, hp, Bool.false_eq_true, if_false]
          rw [List.find?, hp]
          exact ih h

theorem find?_append_right (p : α → Bool) (l : List α) (a : α)
    (h : l.find? p = none) (ha : p a = true) :
    (l ++ [a]).find? p = some a := by
  induction l with
  | nil => simp [List.find?, ha]
  | cons b bs ih =>
      rw [List.find?] at h
      cases hb : p b with
      | true => rw [hb] at h; exact absurd h (by simp)
      | false =>
          rw [hb] at h
          simp only [List.cons_append]
          rw [List.find?, hb]
          exact ih h

theorem updateFirst_append_right (p : α → Bool) (f : α → α) (l : List α) (a : α)
    (h : l.find? p = none) :
    updateFirst p f (l ++ [a]) = l ++ [if p a then f a else a] := by
  induction l with
  | nil => simp only [List.nil_append, updateFirst]; split <;> simp
  | cons b bs ih =>
      rw [List.find?] at h
      cases hb : p b with
      | true => rw [hb] at h; exact absurd h (by simp)
      | false =>
          rw [hb] at h
          simp only [List.cons_append, updateFirst, hb, Bool.false_eq_true, if_false,
            List.append_eq]
          rw [ih h]

end ListLemmas

section HelperLemmas

/-- Writing a run whose id is not yet in the registry appends it. -/
theorem setRun_fresh (runs : List Direct.TestRun) (run : Direct.TestRun) (rid : String)
    (hrid : run.runId = rid)
    (h : runs.find? (fun x => x.runId == rid) = none) :
    Direct.setRun runs run = runs ++ [run] := by
  have hany : runs.any (fun r => r.runId == run.runId) = false := by
    rw [List.any_eq_false]
    intro x hx
    have hnx := List.find?_eq_none.mp h x hx
    simpa [hrid] using hnx
  simp [Direct.setRun, hany]

/-- The call-status mutation never touches the interviewer callSid, so the
webhook lookup key of a run is stable under it. -/
theorem interviewerSid_applyStatus (st : String) (now : Nat) (r : Relay.TestRun) :
    Relay.interviewerSid (Relay.applyStatus st now r) = Relay.interviewerSid r := by
  cases hp : r.participants <;> simp [Relay.interviewerSid, Relay.applyStatus, hp]

end HelperLemmas

section StopLemmas

/-- Core of the stop path: on a registered, non-completed run, `stopTest`
rewrites exactly that run to `completed` with the stop instant as end time,
and issues one end-call request per recorded Vapi call id. -/
theorem stopTest_spec (s : Direct.Storage) (rid : String) (t : Nat) (r : Direct.TestRun)
    (h : s.testRuns.find? (fun x => x.runId == rid) = some r)
    (hnc : r.status ≠ "completed") :
    (Direct.stopTest s rid t).1.testRuns.find? (fun x => x.runId == rid)
        = some { r with status := "completed", endTime := some t }
    ∧ (Direct.stopTest s rid t).2 = (match r.vapiCallId with | some c => [c] | none => []) := by
  have hpr := List.find?_some h
  have hbne : (r.status == "completed") = false := by
    simp only [beq_eq_false_iff_ne, ne_eq]
    exact hnc
  have hstep : Direct.stopTest s rid t =
      (Direct.saveEventS
        { s with testRuns := (updateFirst (fun x => x.runId == rid)
              (fun x => { x with status := "completed", endTime := some t }) s.testRuns) }
        rid "test_completed" t,
       match r.vapiCallId with | some c => [c] | none => []) := by
    simp [Direct.stopTest, h, hbne]
  constructor
  · rw [hstep]
    simp only [Direct.saveEventS]
    exact find?_updateFirst _ _ _ _ h (by simpa using hpr)
  · rw [hstep]

end StopLemmas

/-- C2: for a run present in the registry and not yet completed, invoking
`stopTest` twice in sequence yields exactly one transition to `completed`
(the run is completed after the first call), at most one external cleanup
call per resource (the single Vapi call id yields at most one end-call
request), and the second invocation is a no-op that changes no field of any
run, event list or transcript list and performs no cleanup call. -/
theorem stop_twice_single_completion (s : Direct.Storage) (rid : String) (t1 t2 : Nat)
    (r : Direct.TestRun)
    (h : s.testRuns.find? (fun x => x.runId == rid) = some r)
    (hnc : r.status ≠ "completed") :
    (((Direct.stopTest s rid t1).1.testRuns.find? (fun x => x.runId == rid)).map
        Direct.TestRun.status = some "completed")
    ∧ (Direct.stopTest s rid t1).2.length ≤ 1
    ∧ Direct.stopTest (Direct.stopTest s rid t1).1 rid t2 = ((Direct.stopTest s rid t1).1, []) := by
  obtain ⟨hfind1, hclean⟩ := stopTest_spec s rid t1 r h hnc
  refine ⟨by rw [hfind1]; rfl, ?_, ?_⟩
  · rw [hclean]
    cases r.vapiCallId <;> simp
  · set s1 := (Direct.stopTest s rid t1).1 with hs1
    simp [Direct.stopTest, hfind1]

/-- C2 witness: the concrete running run r1 with Vapi call id c1, stopped at
times 3 and 4. -/
theorem stop_twice_single_completion_witness :
    (((Direct.stopTest storR1 "r1" 3).1.testRuns.find? (fun x => x.runId == "r1")).map
        Direct.TestRun.status = some "completed")
    ∧ (Direct.stopTest storR1 "r1" 3).2.length ≤ 1
    ∧ Direct.stopTest (Direct.stopTest storR1 "r1" 3).1 "r1" 4
        = ((Direct.stopTest storR1 "r1" 3).1, []) :=
  stop_twice_single_completion storR1 "r1" 3 4 runR1 (by decide) (by decide)

/-- C5: an inbound Vapi webhook whose call id matches no run in the registry
leaves the whole storage unchanged (every run, every event list, every
transcript list) and is acknowledged with HTTP 200. -/
theorem unresolvable_webhook_no_mutation (s : Direct.Storage) (req : Direct.VapiReq) (now : Nat)
    (h : s.testRuns.find? (fun r => r.vapiCallId == req.callId) = none) :
    Direct.vapiWebhook s req now = (s, 200) := by
  simp [Direct.vapiWebhook, h]

/-- C5 witness: the stored run r1 has call id c1; a webhook for call id c2
resolves to no run and changes nothing. -/
theorem unresolvable_webhook_no_mutation_witness :
    Direct.vapiWebhook storR1 { type := some "call-end", callId := some "c2" } 5
      = (storR1, 200) :=
  unresolvable_webhook_no_mutation storR1 { type := some "call-end", callId := some "c2" } 5
    (by decide)

/-- C10: stopping a runId absent from the registry answers the caller with
HTTP 200 and success=true, performs no cleanup call, and leaves the whole
storage (runs, events, transcripts) unchanged. -/
theorem stop_unknown_run_noop (s : Direct.Storage) (rid : String) (now : Nat)
    (h : s.testRuns.find? (fun r => r.runId == rid) = none) :
    Direct.stopRoute s rid now = (s, 200, true, []) := by
  simp [Direct.stopRoute, Direct.stopTest, h]

/-- C10 witness: stopping an unknown id on the storage holding only r1. -/
theorem stop_unknown_run_noop_witness :
    Direct.stopRoute storR1 "missing" 9 = (storR1, 200, true, []) :=
  stop_unknown_run_noop storR1 "missing" 9 (by decide)

/-- C1 counterexample: start a run (direct call c1), deliver a call-end
webhook at time 1 (run completed, end time 1), then deliver a second
call-end webhook at time 2: the already-terminal run is re-processed and its
end time is re-recorded as 2 — the second terminal event is not a no-op. -/
theorem second_call_end_rerecords_end_time :
    ((storEnded1.testRuns.find? (fun x => x.runId == "r1")).map Direct.TestRun.status
        = some "completed")
    ∧ ((storEnded1.testRuns.find? (fun x => x.runId == "r1")).map Direct.TestRun.endTime
        = some (some 1))
    ∧ ((storEnded2.testRuns.find? (fun x => x.runId == "r1")).map Direct.TestRun.endTime
        = some (some 2))
    ∧ ¬ ((storEnded2.testRuns.find? (fun x => x.runId == "r1")).map Direct.TestRun.endTime
        = some (some 1)) := by decide

/-- C1 amended: the stop path treats `completed` as terminal, but the Vapi
webhook path has no terminal-status guard: a call-end event arriving for an
already-completed run (with participants recorded) is re-processed — the run
stays `completed` but its end time is overwritten with the new event's
arrival time, and the event is acknowledged with 200. -/
theorem terminal_run_reprocessed_by_webhook (s : Direct.Storage) (req : Direct.VapiReq)
    (t : Nat) (r : Direct.TestRun) (ps : Direct.Participants)
    (hty : req.type = some "call-end")
    (h : s.testRuns.find? (fun x => x.vapiCallId == req.callId) = some r)
    (hterm : r.status = "completed")
    (hps : r.participants = some ps) :
    ((Direct.vapiWebhook s req t).1.testRuns.find? (fun x => x.vapiCallId == req.callId)).map
        Direct.TestRun.endTime = some (some t)
    ∧ ((Direct.vapiWebhook s req t).1.testRuns.find? (fun x => x.vapiCallId == req.callId)).map
        Direct.TestRun.status = some "completed"
    ∧ (Direct.vapiWebhook s req t).2 = 200 := by
  have hpr := List.find?_some h
  have hupdfind := find?_updateFirst (fun x => x.vapiCallId == req.callId)
    (fun x =>
      { x with
        status := "completed",
        endTime := some t,
        participants := x.participants.map (fun q =>
          { q with
            interviewer := { q.interviewer with status := "disconnected" },
            candidate := { q.candidate with status := "disconnected" } }) })
    s.testRuns r h (by simpa using hpr)
  have hweb : (Direct.vapiWebhook s req t).1.testRuns
      = updateFirst (fun x => x.vapiCallId == req.callId)
        (fun x =>
          { x with
            status := "completed",
            endTime := some t,
            participants := x.participants.map (fun q =>
              { q with
                interviewer := { q.interviewer with status := "disconnected" },
                candidate := { q.candidate with status := "disconnected" } }) })
        s.testRuns
      ∧ (Direct.vapiWebhook s req t).2 = 200 := by
    constructor <;> simp [Direct.vapiWebhook, h, hty, hps, Direct.saveEventS]
  refine ⟨?_, ?_, hweb.2⟩ <;> rw [hweb.1, hupdfind] <;> rfl

/-- C1 witness: the completed run of `storEnded1` hit by a second call-end at
time 2. -/
theorem terminal_run_reprocessed_by_webhook_witness :
    ((Direct.vapiWebhook storEnded1 ceReq 2).1.testRuns.find?
        (fun x => x.vapiCallId == ceReq.callId)).map Direct.TestRun.endTime = some (some 2)
    ∧ ((Direct.vapiWebhook storEnded1 ceReq 2).1.testRuns.find?
        (fun x => x.vapiCallId == ceReq.callId)).map Direct.TestRun.status = some "completed"
    ∧ (Direct.vapiWebhook storEnded1 ceReq 2).2 = 200 :=
  terminal_run_reprocessed_by_webhook storEnded1 ceReq 2 runEnded psDisconnected
    (by decide) (by decide) (by decide) (by decide)

/-- C3 counterexample: with valid configuration and the direct Vapi call
rejecting, `startTest` makes exactly the one direct placement attempt —
there is no second (relay) attempt — and surfaces a 500 to the caller, so
the claimed exactly-once relay fallback never happens. -/
theorem direct_failure_no_relay_attempt :
    startRejected.attempts = ["createVapiCall"] ∧ startRejected.respStatus = 500 := by decide

/-- C3 amended: the direct-call engine has a single call-placement strategy.
When that one strategy rejects synchronously, no fallback is attempted and
the error surfaces to the caller as a 500 failure response (no
StrategyExhaustedError type exists); when it succeeds, equally no second
strategy is attempted — either way the attempt list is exactly the one
direct Vapi call. -/
theorem no_fallback_strategy (s : Direct.Storage) (cfg : Direct.Config) (req : Direct.StartReq)
    (rid e aid ph : String) (call : Direct.CallInfo) (t : Nat)
    (h1 : cfg.interviewerAssistantId = some aid) (h2 : cfg.candidatePhone = some ph) :
    (Direct.startTest s cfg req rid (.error e) t).attempts = ["createVapiCall"]
    ∧ (Direct.startTest s cfg req rid (.error e) t).respStatus = 500
    ∧ (Direct.startTest s cfg req rid (.error e) t).respSuccess = false
    ∧ (Direct.startTest s cfg req rid (.ok call) t).attempts = ["createVapiCall"] := by
  refine ⟨?_, ?_, ?_, ?_⟩ <;> simp [Direct.startTest, h1, h2]

/-- C3 witness: valid configuration, rejected call, and a successful call. -/
theorem no_fallback_strategy_witness :
    (Direct.startTest Direct.emptyStorage cfgOk {} "r1" (.error "rejected") 0).attempts
        = ["createVapiCall"]
    ∧ (Direct.startTest Direct.emptyStorage cfgOk {} "r1" (.error "rejected") 0).respStatus = 500
    ∧ (Direct.startTest Direct.emptyStorage cfgOk {} "r1" (.error "rejected") 0).respSuccess
        = false
    ∧ (Direct.startTest Direct.emptyStorage cfgOk {} "r1" (.ok ⟨"c1"⟩) 0).attempts
        = ["createVapiCall"] :=
  no_fallback_strategy Direct.emptyStorage cfgOk {} "r1" "rejected" "asst1" "+15550001111"
    ⟨"c1"⟩ 0 (by decide) (by decide)

/-- C4 counterexample: with valid configuration and the Vapi call rejecting,
the caller gets a 500 failure response but the stored run is left with
status `starting` — there is no `failed` state and no cleanup. -/
theorem rejected_call_leaves_starting_status :
    startRejected.respStatus = 500
    ∧ ((startRejected.storage.testRuns.find? (fun x => x.runId == "r1")).map
        Direct.TestRun.status = some "starting")
    ∧ ¬ ((startRejected.storage.testRuns.find? (fun x => x.runId == "r1")).map
        Direct.TestRun.status = some "failed") := by decide

/-- C4 amended: when the call placement rejects synchronously after the
registry write, the caller receives a failure response (HTTP 500,
success=false), no timer is armed, and the run remains in the registry in
the non-terminal `starting` state (no `failed` state exists and no cleanup
is performed); configuration-validation failures occur before the registry
write and leave no run behind. -/
theorem failed_start_leaves_starting (s : Direct.Storage) (cfg : Direct.Config)
    (req : Direct.StartReq) (rid e aid ph : String) (t : Nat)
    (h1 : cfg.interviewerAssistantId = some aid) (h2 : cfg.candidatePhone = some ph)
    (hfresh : s.testRuns.find? (fun x => x.runId == rid) = none) :
    (Direct.startTest s cfg req rid (.error e) t).respStatus = 500
    ∧ (Direct.startTest s cfg req rid (.error e) t).respSuccess = false
    ∧ (Direct.startTest s cfg req rid (.error e) t).timerDelay = none
    ∧ ((Direct.startTest s cfg req rid (.error e) t).storage.testRuns.find?
        (fun x => x.runId == rid)).map Direct.TestRun.status = some "starting" := by
  have hset : Direct.setRun s.testRuns (Direct.initialRun req rid t)
      = s.testRuns ++ [Direct.initialRun req rid t] :=
    setRun_fresh _ _ rid rfl hfresh
  refine ⟨?_, ?_, ?_, ?_⟩ <;>
    simp only [Direct.startTest, h1, h2, Option.isNone_some, Bool.false_eq_true, if_false,
      Direct.saveEventS, hset]
  rw [find?_append_right _ _ _ hfresh (by simp [Direct.initialRun])]
  rfl

/-- C4 witness: empty registry, valid configuration, rejected call. -/
theorem failed_start_leaves_starting_witness :
    (Direct.startTest Direct.emptyStorage cfgOk {} "r1" (.error "boom") 0).respStatus = 500
    ∧ (Direct.startTest Direct.emptyStorage cfgOk {} "r1" (.error "boom") 0).respSuccess = false
    ∧ (Direct.startTest Direct.emptyStorage cfgOk {} "r1" (.error "boom") 0).timerDelay = none
    ∧ ((Direct.startTest Direct.emptyStorage cfgOk {} "r1" (.error "boom") 0).storage.testRuns.find?
        (fun x => x.runId == "r1")).map Direct.TestRun.status = some "starting" :=
  failed_start_leaves_starting Direct.emptyStorage cfgOk {} "r1" "boom" "asst1"
    "+15550001111" 0 (by decide) (by decide) (by decide)

/-- C6 counterexample: after a start whose call placement rejected, the
stored run has no call id and empty participants; a webhook with type
call-start and no call id then matches that run (undefined equals undefined
in the lookup) and the unguarded participants access throws, so the provider
receives HTTP 500, not 200. -/
theorem webhook_malformed_returns_500 :
    (Direct.vapiWebhook startRejected.storage { type := some "call-start" } 1).2 = 500
    ∧ ¬ ((Direct.vapiWebhook startRejected.storage { type := some "call-start" } 1).2
        = 200) := by decide

/-- C6 amended: the webhook endpoint answers 200 for every payload whose
processing does not throw — in particular for all unresolvable ids and
unrecognized types — but a payload that makes the handler throw (a
call-start or call-end matching a run whose participants are not yet
recorded, or a transcript object without text) is answered with HTTP 500 by
the error-handling middleware.  Formally: if every run the lookup can return
has participants recorded and any transcript payload carries text, the
response is 200. -/
theorem webhook_ack_when_no_throw (s : Direct.Storage) (req : Direct.VapiReq) (now : Nat)
    (hps : ∀ r, s.testRuns.find? (fun x => x.vapiCallId == req.callId) = some r →
      r.participants.isSome = true)
    (htr : ∀ p, req.transcript = some p → p.text.isSome = true) :
    (Direct.vapiWebhook s req now).2 = 200 := by
  cases hfind : s.testRuns.find? (fun r => r.vapiCallId == req.callId) with
  | none => simp [Direct.vapiWebhook, hfind]
  | some run =>
      obtain ⟨ps, hpart⟩ := Option.isSome_iff_exists.mp (hps run hfind)
      by_cases h1 : (req.type == some "call-start") = true
      · simp [Direct.vapiWebhook, hfind, hpart, h1]
      · by_cases h2 : (req.type == some "call-end") = true
        · simp [Direct.vapiWebhook, hfind, hpart, h1, h2]
        · by_cases h3 : (req.type == some "transcript") = true
          · cases htr0 : req.transcript with
            | none => simp [Direct.vapiWebhook, hfind, h1, h2, h3, htr0]
            | some p =>
                have hptext := htr p htr0
                simp [Direct.vapiWebhook, hfind, h1, h2, h3, htr0, hptext]
          · simp [Direct.vapiWebhook, hfind, h1, h2, h3]

/-- C6 witness: a call-end webhook for the fully populated run r1 is
acknowledged with 200. -/
theorem webhook_ack_when_no_throw_witness :
    (Direct.vapiWebhook storR1 ackReq 5).2 = 200 :=
  webhook_ack_when_no_throw storR1 ackReq 5
    (fun r hr => by
      have heq : storR1.testRuns.find? (fun x => x.vapiCallId == ackReq.callId)
          = some runR1 := by decide
      rw [heq] at hr
      have hr2 := Option.some.inj hr
      rw [← hr2]
      decide)
    (fun p hp => by simp [ackReq] at hp)

/-- C7 counterexample: after a successful call placement the run's status is
`running`, not the claimed `connecting`. -/
theorem post_call_status_not_connecting :
    ((startOk.storage.testRuns.find? (fun x => x.runId == "r1")).map
        Direct.TestRun.status = some "running")
    ∧ ¬ ((startOk.storage.testRuns.find? (fun x => x.runId == "r1")).map
        Direct.TestRun.status = some "connecting") := by decide

/-- C7 amended: when the call strategy succeeds, the handler answers 200,
immediately moves the run's status to `running` (the code has no
`connecting` state), and writes the resulting external Vapi call id into the
run. -/
theorem successful_start_status_running (s : Direct.Storage) (cfg : Direct.Config)
    (req : Direct.StartReq) (rid aid ph : String) (call : Direct.CallInfo) (t : Nat)
    (h1 : cfg.interviewerAssistantId = some aid) (h2 : cfg.candidatePhone = some ph)
    (hfresh : s.testRuns.find? (fun x => x.runId == rid) = none) :
    (Direct.startTest s cfg req rid (.ok call) t).respStatus = 200
    ∧ ((Direct.startTest s cfg req rid (.ok call) t).storage.testRuns.find?
        (fun x => x.runId == rid)).map Direct.TestRun.status = some "running"
    ∧ ((Direct.startTest s cfg req rid (.ok call) t).storage.testRuns.find?
        (fun x => x.runId == rid)).map Direct.TestRun.vapiCallId = some (some call.id) := by
  have hset : Direct.setRun s.testRuns (Direct.initialRun req rid t)
      = s.testRuns ++ [Direct.initialRun req rid t] :=
    setRun_fresh _ _ rid rfl hfresh
  have hupd : updateFirst (fun r => r.runId == rid) (Direct.connectRun call)
        (s.testRuns ++ [Direct.initialRun req rid t])
      = s.testRuns ++ [Direct.connectRun call (Direct.initialRun req rid t)] := by
    rw [updateFirst_append_right _ _ _ _ hfresh]
    simp [Direct.initialRun]
  have hfind : (s.testRuns ++ [Direct.connectRun call (Direct.initialRun req rid t)]).find?
        (fun x => x.runId == rid)
      = some (Direct.connectRun call (Direct.initialRun req rid t)) :=
    find?_append_right _ _ _ hfresh (by simp [Direct.connectRun, Direct.initialRun])
  refine ⟨?_, ?_, ?_⟩ <;>
    simp only [Direct.startTest, h1, h2, Option.isNone_some, Bool.false_eq_true, if_false,
      Direct.saveEventS, hset, hupd, hfind]
  · rfl
  · rfl

/-- C7 witness: empty registry, valid configuration, call created with id
c1. -/
theorem successful_start_status_running_witness :
    (Direct.startTest Direct.emptyStorage cfgOk {} "r1" (.ok ⟨"c1"⟩) 0).respStatus = 200
    ∧ ((Direct.startTest Direct.emptyStorage cfgOk {} "r1" (.ok ⟨"c1"⟩) 0).storage.testRuns.find?
        (fun x => x.runId == "r1")).map Direct.TestRun.status = some "running"
    ∧ ((Direct.startTest Direct.emptyStorage cfgOk {} "r1" (.ok ⟨"c1"⟩) 0).storage.testRuns.find?
        (fun x => x.runId == "r1")).map Direct.TestRun.vapiCallId
        = some (some "c1") :=
  successful_start_status_running Direct.emptyStorage cfgOk {} "r1" "asst1" "+15550001111"
    ⟨"c1"⟩ 0 (by decide) (by decide) (by decide)

/-- C8 counterexample: `startTest` armed with a request carrying
durationSeconds = 5 still schedules the timer for the fixed 300000 ms
(5 minutes), not 5000 ms — the handler never reads a duration from the
request. -/
theorem timer_ignores_requested_duration :
    (Direct.startTest Direct.emptyStorage cfgOk { durationSeconds := some 5 } "r1"
      (.ok ⟨"c1"⟩) 0).timerDelay = some 300000
    ∧ ¬ ((Direct.startTest Direct.emptyStorage cfgOk { durationSeconds := some 5 } "r1"
      (.ok ⟨"c1"⟩) 0).timerDelay = some (5 * 1000)) := by decide

/-- C8 amended: every successful start arms a single deferred termination
with the fixed configured delay of 300000 ms (5 minutes) — the request
supplies no duration that is read — and when such a timer fires while its
run is still non-terminal, the stop path drives the run to `completed`. -/
theorem fixed_timeout_completes_run (s : Direct.Storage) (cfg : Direct.Config)
    (req : Direct.StartReq) (rid aid ph : String) (call : Direct.CallInfo) (t : Nat)
    (s2 : Direct.Storage) (r : Direct.TestRun) (t2 : Nat)
    (h1 : cfg.interviewerAssistantId = some aid) (h2 : cfg.candidatePhone = some ph)
    (hf : s2.testRuns.find? (fun x => x.runId == rid) = some r)
    (hnc : r.status ≠ "completed") :
    (Direct.startTest s cfg req rid (.ok call) t).timerDelay = some Direct.testTimeout
    ∧ Direct.testTimeout = 300000
    ∧ ((Direct.timeoutFire s2 rid t2).1.testRuns.find? (fun x => x.runId == rid)).map
        Direct.TestRun.status = some "completed" := by
  refine ⟨?_, rfl, ?_⟩
  · simp [Direct.startTest, h1, h2]
  · have hbne : (r.status == "completed") = false := by
      simp only [beq_eq_false_iff_ne, ne_eq]
      exact hnc
    have hfire : Direct.timeoutFire s2 rid t2 = Direct.stopTest s2 rid t2 := by
      simp [Direct.timeoutFire, hf, hbne, Direct.stopTest]
    rw [hfire]
    obtain ⟨hfind1, -⟩ := stopTest_spec s2 rid t2 r hf hnc
    rw [hfind1]
    rfl

/-- C8 witness: a successful start arms the 300000 ms timer; firing it at
time 300 on the still-running run r1 completes that run. -/
theorem fixed_timeout_completes_run_witness :
    (Direct.startTest Direct.emptyStorage cfgOk {} "r1" (.ok ⟨"c1"⟩) 0).timerDelay
        = some Direct.testTimeout
    ∧ Direct.testTimeout = 300000
    ∧ ((Direct.timeoutFire storR1 "r1" 300).1.testRuns.find? (fun x => x.runId == "r1")).map
        Direct.TestRun.status = some "completed" :=
  fixed_timeout_completes_run Direct.emptyStorage cfgOk {} "r1" "asst1" "+15550001111"
    ⟨"c1"⟩ 0 storR1 runR1 300 (by decide) (by decide) (by decide) (by decide)

/-- C9 counterexample: the run whose interviewer leg CA1 receives `answered`
at time 1 and `completed` at time 2 keeps run status `running` (the handler
never writes it, so the run does not end in `completed` through these
events) and its interviewer participant ends with the raw status
`completed`, not the claimed `disconnected`; the connect and disconnect
times are recorded as 1 and 2. -/
theorem call_status_leaves_run_status :
    ((relayDone.testRuns.find? (fun x => x.runId == "r1")).map Relay.TestRun.status
        = some "running")
    ∧ ¬ ((relayDone.testRuns.find? (fun x => x.runId == "r1")).map Relay.TestRun.status
        = some "completed")
    ∧ ((relayDone.testRuns.find? (fun x => x.runId == "r1")).map
        (fun r => r.participants.map (fun q => q.interviewer.status))
        = some (some "completed"))
    ∧ ¬ ((relayDone.testRuns.find? (fun x => x.runId == "r1")).map
        (fun r => r.participants.map (fun q => q.interviewer.status))
        = some (some "disconnected"))
    ∧ ((relayDone.testRuns.find? (fun x => x.runId == "r1")).map
        (fun r => r.participants.map (fun q => q.interviewer.connectTime))
        = some (some (some 1)))
    ∧ ((relayDone.testRuns.find? (fun x => x.runId == "r1")).map
        (fun r => r.participants.map (fun q => q.interviewer.disconnectTime))
        = some (some (some 2))) := by decide

/-- C9 amended: after an `answered` then a `completed` call-status event for
the interviewer leg (arriving at increasing times t1 < t2), the interviewer
participant's status equals the raw Twilio value `completed` (never
`disconnected`), its connect time t1 is strictly earlier than its disconnect
time t2, and the run's own status is left exactly as it was — the run
reaches `completed` only via conference-end, explicit stop, or the timeout,
not via this handler. -/
theorem interviewer_leg_lifecycle (s : Relay.Storage) (sid : String) (r : Relay.TestRun)
    (ps : Relay.Participants) (t1 t2 : Nat)
    (h : s.testRuns.find? (fun x => Relay.interviewerSid x == some sid) = some r)
    (hps : r.participants = some ps)
    (ht : t1 < t2) :
    ((((Relay.callStatusHook (Relay.callStatusHook s (some sid) "answered" t1).1
          (some sid) "completed" t2).1.testRuns.find?
        (fun x => Relay.interviewerSid x == some sid)).map
        (fun x => x.participants.map (fun q => q.interviewer.status)))
        = some (some "completed"))
    ∧ ((((Relay.callStatusHook (Relay.callStatusHook s (some sid) "answered" t1).1
          (some sid) "completed" t2).1.testRuns.find?
        (fun x => Relay.interviewerSid x == some sid)).map
        (fun x => x.participants.map (fun q => q.interviewer.connectTime)))
        = some (some (some t1)))
    ∧ ((((Relay.callStatusHook (Relay.callStatusHook s (some sid) "answered" t1).1
          (some sid) "completed" t2).1.testRuns.find?
        (fun x => Relay.interviewerSid x == some sid)).map
        (fun x => x.participants.map (fun q => q.interviewer.disconnectTime)))
        = some (some (some t2)))
    ∧ t1 < t2
    ∧ ((((Relay.callStatusHook (Relay.callStatusHook s (some sid) "answered" t1).1
          (some sid) "completed" t2).1.testRuns.find?
        (fun x => Relay.interviewerSid x == some sid)).map Relay.TestRun.status)
        = some r.status) := by
  have hpr := List.find?_some h
  have hfind1 := find?_updateFirst (fun x => Relay.interviewerSid x == some sid)
    (Relay.applyStatus "answered" t1) s.testRuns r h
    (by simpa [interviewerSid_applyStatus] using hpr)
  set s1 := (Relay.callStatusHook s (some sid) "answered" t1).1 with hs1
  have hstep1 : s1.testRuns
      = updateFirst (fun x => Relay.interviewerSid x == some sid)
        (Relay.applyStatus "answered" t1) s.testRuns := by
    rw [hs1]
    simp [Relay.callStatusHook, h, hps]
  have hfind1' : s1.testRuns.find? (fun x => Relay.interviewerSid x == some sid)
      = some (Relay.applyStatus "answered" t1 r) := by
    rw [hstep1]; exact hfind1
  have hps1 : (Relay.applyStatus "answered" t1 r).participants
      = some { ps with interviewer :=
          { ps.interviewer with status := "answered", connectTime := some t1 } } := by
    simp [Relay.applyStatus, hps]
  have hfind2 := find?_updateFirst (fun x => Relay.interviewerSid x == some sid)
    (Relay.applyStatus "completed" t2) s1.testRuns
    (Relay.applyStatus "answered" t1 r) hfind1'
    (by simpa [interviewerSid_applyStatus] using hpr)
  have hstep2 : (Relay.callStatusHook s1 (some sid) "completed" t2).1.testRuns
      = updateFirst (fun x => Relay.interviewerSid x == some sid)
        (Relay.applyStatus "completed" t2) s1.testRuns := by
    simp [Relay.callStatusHook, hfind1', hps1]
  have hfinal : (Relay.callStatusHook s1 (some sid) "completed" t2).1.testRuns.find?
      (fun x => Relay.interviewerSid x == some sid)
      = some (Relay.applyStatus "completed" t2 (Relay.applyStatus "answered" t1 r)) := by
    rw [hstep2]; exact hfind2
  refine ⟨?_, ?_, ?_, ht, ?_⟩ <;> rw [hfinal] <;>
    simp [Relay.applyStatus, hps]

/-- C9 witness: the concrete conference-variant run with interviewer leg
CA1, answered at time 1 and completed at time 2. -/
theorem interviewer_leg_lifecycle_witness :
    ((((Relay.callStatusHook (Relay.callStatusHook relayStor (some "CA1") "answered" 1).1
          (some "CA1") "completed" 2).1.testRuns.find?
        (fun x => Relay.interviewerSid x == some "CA1")).map
        (fun x => x.participants.map (fun q => q.interviewer.status)))
        = some (some "completed"))
    ∧ ((((Relay.callStatusHook (Relay.callStatusHook relayStor (some "CA1") "answered" 1).1
          (some "CA1") "completed" 2).1.testRuns.find?
        (fun x => Relay.interviewerSid x == some "CA1")).map
        (fun x => x.participants.map (fun q => q.interviewer.connectTime)))
        = some (some (some 1)))
    ∧ ((((Relay.callStatusHook (Relay.callStatusHook relayStor (some "CA1") "answered" 1).1
          (some "CA1") "completed" 2).1.testRuns.find?
        (fun x => Relay.interviewerSid x == some "CA1")).map
        (fun x => x.participants.map (fun q => q.interviewer.disconnectTime)))
        = some (some (some 2)))
    ∧ (1 : Nat) < 2
    ∧ ((((Relay.callStatusHook (Relay.callStatusHook relayStor (some "CA1") "answered" 1).1
          (some "CA1") "completed" 2).1.testRuns.find?
        (fun x => Relay.interviewerSid x == some "CA1")).map Relay.TestRun.status)
        = some relayRun.status) :=
  interviewer_leg_lifecycle relayStor "CA1" relayRun relayPs 1 2
    (by decide) (by decide) (by decide)

end BotInterview
